import Mathlib

/-!
Verification of the resilient upstream API client of the team-manage
repository (`app/services/chatgpt.py`, class `ChatGPTService`).

The embedding models the response classifier (`_simplify_error_text` and
its two helpers), the clearance-cookie cache (`_cf_cookies_valid`,
`_ensure_cf_cookies`), the retry/recovery executor (`_make_request`),
the member-list pagination loop (`get_members`) and `close`.

Conventions of the embedding:
  * Wall-clock time is an integer number of seconds.
  * The network environment of one logical `_make_request` call is a
    function from the loop's attempt index to the outcome of the HTTP
    dispatch performed in that iteration, plus a function giving the
    boolean result of each successive `_try_cf_recovery` call.
  * JSON bodies are abstracted to exactly the fields the source reads:
    `detail`, and the error code extracted from `error.code` / `code`
    (a falsy Python value is modelled as `none`).  A response whose body
    fails to parse as JSON carries `json = none`.
  * Ghost statistics (number of HTTP dispatches, number of recovery
    calls, the list of back-off sleeps in order) are computed alongside
    the returned envelope; the source only performs these effects.
-/

namespace ChatGPTService

/-- Character-list analogue of Python's `pattern in text` for the list
starting with the pattern (`str.startswith`). -/
def listStartsWith : List Char → List Char → Bool
  | _, [] => true
  | [], _ :: _ => false
  | c :: cs, p :: ps => c == p && listStartsWith cs ps

/-- Character-list analogue of Python's substring test `pat in s`. -/
def listHasSub (pat : List Char) : List Char → Bool
  | [] => listStartsWith [] pat
  | c :: cs => listStartsWith (c :: cs) pat || listHasSub pat cs

/-- Python `str.strip()` on a character list (whitespace both ends). -/
def wsTrim (l : List Char) : List Char :=
  ((l.dropWhile Char.isWhitespace).reverse.dropWhile Char.isWhitespace).reverse

/-- Source constant `MAX_RETRIES = 3`. -/
def MAX_RETRIES : Nat := 3

/-- Source constant `RETRY_DELAYS = [1, 2, 4]` (seconds). -/
def RETRY_DELAYS : List Nat := [1, 2, 4]

/-- Source constant `CF_COOKIE_TTL = 1800` (seconds). -/
def CF_COOKIE_TTL : Int := 1800

/-- Source `_looks_like_html`: false on a falsy argument, otherwise the
lstripped, lowered text starts with an HTML document prefix or contains
an `<html` tag in its first 200 characters. -/
def looks_like_html : Option String → Bool
  | none => false
  | some t =>
    if t.data.isEmpty then false
    else
      let stripped := (t.data.dropWhile Char.isWhitespace).map Char.toLower
      listStartsWith stripped ("<!doctype html".data) ||
      listStartsWith stripped ("<html".data) ||
      listHasSub ("<html".data) (stripped.take 200)

/-- Source `_is_cloudflare_challenge`: false on a falsy argument,
otherwise the lowered text contains one of the four challenge markers. -/
def is_cloudflare_challenge : Option String → Bool
  | none => false
  | some t =>
    if t.data.isEmpty then false
    else
      let lowered := t.data.map Char.toLower
      listHasSub ("cdn-cgi/challenge-platform".data) lowered ||
      listHasSub ("_cf_chl_opt".data) lowered ||
      listHasSub ("cf-chl".data) lowered ||
      listHasSub ("enable javascript and cookies to continue".data) lowered

/-- Message the classifier returns for a Cloudflare challenge page. -/
def cf_blocked_message : String :=
  "请求被 Cloudflare 拦截（需要浏览器验证）。请在系统设置中配置 FlareSolverr 后重试。"

/-- Message the classifier returns for a non-challenge HTML page. -/
def html_response_message : String :=
  "服务返回了 HTML 页面（可能被拦截或重定向），请稍后重试。"

/-- Result of `_simplify_error_text`: a readable message plus an
optional error code. -/
structure Simplified where
  message : String
  code : Option String
deriving DecidableEq

/-- Source `_simplify_error_text`: collapse an HTML / overlong error
body into a short message and optional code. -/
def simplify_error_text : Option String → Simplified
  | none => ⟨"请求失败", none⟩
  | some t =>
    if t.data.isEmpty then ⟨"请求失败", none⟩
    else if looks_like_html (some t) && is_cloudflare_challenge (some t) then
      ⟨cf_blocked_message, some "cloudflare_challenge"⟩
    else if looks_like_html (some t) then
      ⟨html_response_message, some "html_response"⟩
    else
      let trimmed := wsTrim t.data
      if trimmed.length > 2000 then ⟨String.mk (trimmed.take 2000) ++ "...(已截断)", none⟩
      else ⟨String.mk trimmed, none⟩

/-- Clearance-cookie cache part of the service state: `_cf_cookies`
(a name to value mapping or `None`), `_cf_user_agent`, and the capture
timestamp `_cf_cookies_time`. -/
structure CfState where
  cf_cookies : Option (List (String × String))
  cf_user_agent : Option String
  cf_cookies_time : Int
deriving DecidableEq

/-- Python truthiness of `self._cf_cookies`: `None` and the empty
mapping are both falsy. -/
def cookies_present (st : CfState) : Bool :=
  match st.cf_cookies with
  | some l => !l.isEmpty
  | none => false

/-- Source `_cf_cookies_valid`: cookies are truthy and their age is
strictly below `CF_COOKIE_TTL`. -/
def cf_cookies_valid (st : CfState) (now : Int) : Bool :=
  cookies_present st && decide (now - st.cf_cookies_time < CF_COOKIE_TTL)

/-- Source `_ensure_cf_cookies` invokes `_fetch_cf_cookies` exactly when
the cache is not valid. -/
def ensure_cf_cookies_fetches (st : CfState) (now : Int) : Bool :=
  !cf_cookies_valid st now

/-- FlareSolverr configuration as read by `_fetch_cf_cookies` from the
settings collaborator: the enabled flag and the solver URL. -/
structure FlareConfig where
  enabled : Bool
  url : Option String
deriving DecidableEq

/-- Source `_fetch_cf_cookies` returns before any network call when
`not config["enabled"] or not config["url"]`; it issues its solver POST
exactly when the configuration is usable. -/
def config_usable (c : FlareConfig) : Bool :=
  c.enabled && (match c.url with
    | some u => !(u == "")
    | none => false)

/-- Number of solver-service requests one `_ensure_cf_cookies` call
issues: zero when the cache is valid, otherwise the single request of
`_fetch_cf_cookies` when the configuration is usable. -/
def ensure_solver_calls (st : CfState) (now : Int) (cfg : FlareConfig) : Nat :=
  if cf_cookies_valid st now then 0
  else if config_usable cfg then 1 else 0

/-- Abstraction of a parsed JSON body: exactly the fields
`_make_request` reads on the 4xx path.  `detail` is the `detail` entry
when present with a string value; `code` is the error code the source
extracts (`error.code` when `error` is an object, else the top-level
`code`), with falsy Python values collapsed to `none`. -/
structure JsonDoc where
  detail : Option String
  code : Option String
deriving DecidableEq

/-- One HTTP response: status, the parsed JSON body (`none` when
`response.json()` raises), and `response.text`. -/
structure HttpResponse where
  status : Nat
  json : Option JsonDoc
  text : String
deriving DecidableEq

/-- Outcome of one dispatch inside the retry loop: a response, an
`asyncio.TimeoutError`, or any other exception caught by the generic
handler (transport errors, and the `ValueError` raised for an
unsupported method). -/
inductive AttemptOutcome where
  | response (r : HttpResponse)
  | timeout
  | exn (msg : String)
deriving DecidableEq

/-- Environment of one logical `_make_request` call: the outcome of the
dispatch performed at each loop attempt index, and the boolean result of
each successive `_try_cf_recovery` call. -/
structure ExecEnv where
  outcomes : Nat → AttemptOutcome
  recoveries : Nat → Bool

/-- Result envelope of `_make_request`: the keys of the returned dict.
A key that is absent or `None` is `none`. -/
structure Envelope where
  success : Bool
  status_code : Nat
  data : Option JsonDoc
  error : Option String
  error_code : Option String
deriving DecidableEq

/-- Ghost statistics of one logical call: HTTP dispatches performed,
`_try_cf_recovery` calls performed, and the back-off sleeps in order. -/
structure Stats where
  dispatches : Nat
  recoveryCalls : Nat
  sleeps : List Nat
deriving DecidableEq

/-- The `error_msg` / `error_code` extraction of the 4xx branch
(source lines 309-327, before simplification): on a parsed JSON body the
message is `detail` defaulting to `response.text` and the code is the
extracted code field; when parsing raised, the message is
`response.text` and the code stays `None`. -/
def client_error_fields (r : HttpResponse) : String × Option String :=
  match r.json with
  | some d => (d.detail.getD r.text, d.code)
  | none => (r.text, none)

/-- Body of one iteration of the retry loop of `_make_request`
(source lines 232-423).  `attempt` is the loop index, `next cf idx` is
the `continue` continuation (advancing to the next loop iteration with
the given challenge-retried flag and recovery-call index).  The source's
2xx branch distinguishes a JSON content type from other content types,
but both arms attempt `response.json()` and fall back to
`response.text`, so the distinction is not modelled. -/
def mrStep (env : ExecEnv) (hasDb methodOk : Bool) (methodMsg : String)
    (attempt : Nat) (cfRetried : Bool) (recIdx : Nat)
    (next : Bool → Nat → Envelope × Stats) : Envelope × Stats :=
  let disp : Nat := if methodOk then 1 else 0
  match (if methodOk then env.outcomes attempt else AttemptOutcome.exn methodMsg) with
  | .response r =>
    if 200 ≤ r.status ∧ r.status < 300 then
      match r.json with
      | some d => (⟨true, r.status, some d, none, none⟩, ⟨disp, 0, []⟩)
      | none =>
        let simplified := simplify_error_text (some r.text)
        let failEnvelope : Envelope :=
          ⟨false, r.status, none, some simplified.message,
            some (simplified.code.getD "invalid_response")⟩
        if (simplified.code == some "cloudflare_challenge") && !cfRetried && hasDb then
          if env.recoveries recIdx then
            let res := next true (recIdx + 1)
            (res.1, ⟨disp + res.2.dispatches, 1 + res.2.recoveryCalls, res.2.sleeps⟩)
          else (failEnvelope, ⟨disp, 1, []⟩)
        else (failEnvelope, ⟨disp, 0, []⟩)
    else if 400 ≤ r.status ∧ r.status < 500 then
      let fields := client_error_fields r
      let simplified := simplify_error_text (some fields.1)
      let failEnvelope : Envelope :=
        ⟨false, r.status, none, some simplified.message, fields.2 <|> simplified.code⟩
      if (simplified.code == some "cloudflare_challenge") && !cfRetried && hasDb then
        if env.recoveries recIdx then
          let res := next true (recIdx + 1)
          (res.1, ⟨disp + res.2.dispatches, 1 + res.2.recoveryCalls, res.2.sleeps⟩)
        else (failEnvelope, ⟨disp, 1, []⟩)
      else (failEnvelope, ⟨disp, 0, []⟩)
    else if 500 ≤ r.status then
      if looks_like_html (some r.text) && is_cloudflare_challenge (some r.text) then
        let simplified := simplify_error_text (some r.text)
        let failEnvelope : Envelope :=
          ⟨false, r.status, none, some simplified.message,
            some (simplified.code.getD "cloudflare_challenge")⟩
        if !cfRetried && hasDb then
          if env.recoveries recIdx then
            let res := next true (recIdx + 1)
            (res.1, ⟨disp + res.2.dispatches, 1 + res.2.recoveryCalls, res.2.sleeps⟩)
          else (failEnvelope, ⟨disp, 1, []⟩)
        else (failEnvelope, ⟨disp, 0, []⟩)
      else
        if attempt < MAX_RETRIES - 1 then
          let res := next cfRetried recIdx
          (res.1, ⟨disp + res.2.dispatches, res.2.recoveryCalls,
            RETRY_DELAYS.getD attempt 0 :: res.2.sleeps⟩)
        else
          (⟨false, r.status, none,
            some ("服务器错误 " ++ toString r.status ++ ",已重试 " ++ toString MAX_RETRIES ++ " 次"),
            none⟩, ⟨disp, 0, []⟩)
    else
      -- a status below 200 or in [300,500) outside the handled ranges:
      -- the loop body of the source ends without returning, so the for
      -- loop advances to the next attempt without sleeping
      let res := next cfRetried recIdx
      (res.1, ⟨disp + res.2.dispatches, res.2.recoveryCalls, res.2.sleeps⟩)
  | .timeout =>
    if attempt < MAX_RETRIES - 1 then
      let res := next cfRetried recIdx
      (res.1, ⟨disp + res.2.dispatches, res.2.recoveryCalls,
        RETRY_DELAYS.getD attempt 0 :: res.2.sleeps⟩)
    else
      (⟨false, 0, none, some ("请求超时,已重试 " ++ toString MAX_RETRIES ++ " 次"), none⟩,
        ⟨disp, 0, []⟩)
  | .exn msg =>
    if attempt < MAX_RETRIES - 1 then
      let res := next cfRetried recIdx
      (res.1, ⟨disp + res.2.dispatches, res.2.recoveryCalls,
        RETRY_DELAYS.getD attempt 0 :: res.2.sleeps⟩)
    else
      (⟨false, 0, none, some ("请求异常: " ++ msg), none⟩, ⟨disp, 0, []⟩)

/-- The retry loop `for attempt in range(MAX_RETRIES)` of
`_make_request`: `remaining` counts the loop iterations still available
(the attempt index is `MAX_RETRIES - remaining`); falling off the end of
the loop returns the source's `"未知错误"` envelope. -/
def mrLoop (env : ExecEnv) (hasDb methodOk : Bool) (methodMsg : String) :
    Nat → Bool → Nat → Envelope × Stats
  | 0, _, _ => (⟨false, 0, none, some "未知错误", none⟩, ⟨0, 0, []⟩)
  | remaining + 1, cfRetried, recIdx =>
    mrStep env hasDb methodOk methodMsg (MAX_RETRIES - (remaining + 1)) cfRetried recIdx
      (fun cf idx => mrLoop env hasDb methodOk methodMsg remaining cf idx)

/-- Session-related entry state of `_make_request`: whether
`self.session` is set, and whether `_create_session` (called outside the
try/except of the loop when no session exists) raises. -/
structure SessionCtx where
  hasSession : Bool
  createFails : Bool
deriving DecidableEq

/-- The method names `_make_request` dispatches; any other name raises
`ValueError` inside the loop's try block. -/
def method_supported (method : String) : Bool :=
  method == "GET" || method == "POST" || method == "DELETE"

/-- Source `_make_request`: create the session if absent (an exception
there propagates, since that statement precedes the try/except), then
run the retry loop with `cf_retried = False`. -/
def make_request (env : ExecEnv) (ctx : SessionCtx) (hasDb : Bool) (method : String) :
    Except String (Envelope × Stats) :=
  if ctx.hasSession = false ∧ ctx.createFails = true then
    Except.error "exception raised while creating the session"
  else
    Except.ok (mrLoop env hasDb (method_supported method)
      ("不支持的 HTTP 方法: " ++ method) MAX_RETRIES false 0)

/-- Outcome of one page request as `get_members` consumes it: the
success flag of the `_make_request` envelope together with
`data.get("items", [])` and `data.get("total", 0)`, or the failure
message and code. -/
inductive PageResult (α : Type) where
  | ok (items : List α) (total : Nat)
  | fail (error : String) (error_code : Option String)

/-- Result envelope of `get_members`. -/
structure MembersResult (α : Type) where
  success : Bool
  members : List α
  total : Nat
  error : Option String
  error_code : Option String
deriving DecidableEq

/-- The `while True` pagination loop of `get_members`: issue a page
request at `offset`, abort on failure, otherwise accumulate the items
and stop once the accumulated count reaches the server-reported total,
else advance the offset by the page size 50.  `fuel` bounds the number
of iterations of the embedding; `none` means the source would still be
looping.  The second component records the requested offsets in order. -/
def get_members_loop {α : Type} (server : Nat → PageResult α) :
    Nat → Nat → List α → Option (MembersResult α × List Nat)
  | 0, _, _ => none
  | fuel + 1, offset, all_members =>
    match server offset with
    | .fail e ec => some (⟨false, [], 0, some e, ec⟩, [offset])
    | .ok items total =>
      let all_members := all_members ++ items
      if all_members.length ≥ total then
        some (⟨true, all_members, all_members.length, none, none⟩, [offset])
      else
        (get_members_loop server fuel (offset + 50) all_members).map
          (fun p => (p.1, offset :: p.2))

/-- Source `get_members`: the pagination loop started at offset 0 with
an empty accumulator. -/
def get_members {α : Type} (server : Nat → PageResult α) (fuel : Nat) :
    Option (MembersResult α × List Nat) :=
  get_members_loop server fuel 0 []

/-- Session-holding state for `close`: the session handle or `None`. -/
structure SessionState where
  session : Option Unit
deriving DecidableEq

/-- Source `close`: when a session exists, await `session.close()` and
then set `self.session = None`.  `closeRaises` says whether the
underlying `session.close()` raises; the first component is the
exception propagating out of `close` (there is no try/except around the
release, so a raise skips the `self.session = None` assignment). -/
def close (st : SessionState) (closeRaises : Bool) : Option String × SessionState :=
  match st.session with
  | none => (none, st)
  | some _ =>
    if closeRaises then (some "exception from session.close()", st)
    else (none, { st with session := none })

/-- A minimal Cloudflare challenge page: HTML-looking and carrying the
`cf-chl` marker. -/
def chl_text : String := "<html>cf-chl</html>"

/-- Environment in which every dispatch times out and every recovery
fails. -/
def env0 : ExecEnv := ⟨fun _ => AttemptOutcome.timeout, fun _ => false⟩

/-- Environment for the C2 counterexample: the first dispatch yields a
2xx challenge page, recovery succeeds, and every later dispatch is a
plain 500. -/
def envC2 : ExecEnv :=
  ⟨fun i => if i = 0 then AttemptOutcome.response ⟨200, none, chl_text⟩
            else AttemptOutcome.response ⟨500, none, "bad gateway"⟩,
   fun _ => true⟩

/-- Environment for the C3 counterexample: every dispatch raises a
transport exception. -/
def envC3x : ExecEnv := ⟨fun _ => AttemptOutcome.exn "boom", fun _ => false⟩

/-- Environment for the C4 witness: a 503 whose body is a challenge
page; recovery fails. -/
def envC4 : ExecEnv :=
  ⟨fun _ => AttemptOutcome.response ⟨503, none, chl_text⟩, fun _ => false⟩

/-- Environment for the C5 witness: a plain 404 with a short text
body. -/
def envC5 : ExecEnv :=
  ⟨fun _ => AttemptOutcome.response ⟨404, none, "not found"⟩, fun _ => false⟩

/-- Server of the C7 scenario: it reports `total = 120` and answers
offsets 0 and 50 with 50 items each and offset 100 with 20 items,
the items being consecutive naturals. -/
def server120 : Nat → PageResult Nat :=
  fun offset =>
    if offset = 0 then PageResult.ok (List.range' 0 50) 120
    else if offset = 50 then PageResult.ok (List.range' 50 50) 120
    else if offset = 100 then PageResult.ok (List.range' 100 20) 120
    else PageResult.ok [] 120

/-- Server for the C10 witness: it reports `total = 10` but delivers 50
items on the first page. -/
def server_over : Nat → PageResult Nat :=
  fun _ => PageResult.ok (List.range' 0 50) 10

/-- Concrete cookie cache captured at time 1000 for the C6 witness. -/
def cfst0 : CfState := ⟨some [("cf_clearance", "tok")], none, 1000⟩

/-- Concrete usable FlareSolverr configuration for the C6 witness. -/
def flcfg0 : FlareConfig := ⟨true, some "http://solver"⟩

/-- A dispatch outcome the loop retries with back-off: a 5xx whose body
is not a challenge page, a timeout, or a transport exception. -/
def retryable_outcome : AttemptOutcome → Bool
  | .response r =>
    decide (500 ≤ r.status) &&
      !(looks_like_html (some r.text) && is_cloudflare_challenge (some r.text))
  | .timeout => true
  | .exn _ => true

/-- Status code of the envelope returned when the budget is exhausted on
the given retryable outcome (the source returns the response's status
for a 5xx and 0 for a timeout or exception). -/
def terminal_status : AttemptOutcome → Nat
  | .response r => r.status
  | .timeout => 0
  | .exn _ => 0

/-- Error message of the envelope returned when the budget is exhausted
on the given retryable outcome: the 5xx and timeout messages state the
retry count, the transport-exception message does not. -/
def terminal_failure_error : AttemptOutcome → String
  | .response r =>
    "服务器错误 " ++ toString r.status ++ ",已重试 " ++ toString MAX_RETRIES ++ " 次"
  | .timeout => "请求超时,已重试 " ++ toString MAX_RETRIES ++ " 次"
  | .exn msg => "请求异常: " ++ msg

/-- Unfolding equation of the retry loop for a successor fuel value. -/
theorem mrLoop_succ (env : ExecEnv) (hasDb methodOk : Bool) (methodMsg : String)
    (remaining : Nat) (cfRetried : Bool) (recIdx : Nat) :
    mrLoop env hasDb methodOk methodMsg (remaining + 1) cfRetried recIdx =
      mrStep env hasDb methodOk methodMsg (MAX_RETRIES - (remaining + 1)) cfRetried recIdx
        (fun cf idx => mrLoop env hasDb methodOk methodMsg remaining cf idx) := rfl

/-- Unfolding equation of the retry loop at the start of a call
(attempt index 0, two further iterations available). -/
theorem mrLoop_start (env : ExecEnv) (hasDb methodOk : Bool) (methodMsg : String) :
    mrLoop env hasDb methodOk methodMsg MAX_RETRIES false 0 =
      mrStep env hasDb methodOk methodMsg 0 false 0
        (fun cf idx => mrLoop env hasDb methodOk methodMsg 2 cf idx) := rfl

/-- Unfolding equation of the retry loop at attempt index 1. -/
theorem mrLoop_two (env : ExecEnv) (hasDb methodOk : Bool) (methodMsg : String)
    (cfRetried : Bool) (recIdx : Nat) :
    mrLoop env hasDb methodOk methodMsg 2 cfRetried recIdx =
      mrStep env hasDb methodOk methodMsg 1 cfRetried recIdx
        (fun cf idx => mrLoop env hasDb methodOk methodMsg 1 cf idx) := rfl

/-- Unfolding equation of the retry loop at the final attempt index. -/
theorem mrLoop_one (env : ExecEnv) (hasDb methodOk : Bool) (methodMsg : String)
    (cfRetried : Bool) (recIdx : Nat) :
    mrLoop env hasDb methodOk methodMsg 1 cfRetried recIdx =
      mrStep env hasDb methodOk methodMsg 2 cfRetried recIdx
        (fun cf idx => mrLoop env hasDb methodOk methodMsg 0 cf idx) := rfl

/-- Once the challenge-retried flag is set, the loop performs no further
recovery call: all three challenge guards require `not cf_retried`. -/
theorem mrLoop_retried_no_recovery (env : ExecEnv) (hasDb methodOk : Bool)
    (methodMsg : String) :
    ∀ remaining recIdx,
      (mrLoop env hasDb methodOk methodMsg remaining true recIdx).2.recoveryCalls = 0 := by
  intro remaining
  induction remaining with
  | zero => intro recIdx; rfl
  | succ n ih =>
    intro recIdx
    rw [mrLoop_succ]
    simp only [mrStep]
    split
    case h_1 r =>
      split
      · split
        · rfl
        · split
          · rename_i hguard
            simp at hguard
          · rfl
      · split
        · split
          · rename_i hguard
            simp at hguard
          · rfl
        · split
          · split
            · split
              · rename_i hguard
                simp at hguard
              · rfl
            · split
              · exact ih recIdx
              · rfl
          · exact ih recIdx
    case h_2 =>
      split
      · exact ih recIdx
      · rfl
    case h_3 msg =>
      split
      · exact ih recIdx
      · rfl

/-- Starting with the challenge-retried flag clear, the loop performs at
most one recovery call: a successful recovery sets the flag and a failed
one returns terminally. -/
theorem mrLoop_recovery_le_one (env : ExecEnv) (hasDb methodOk : Bool)
    (methodMsg : String) :
    ∀ remaining recIdx,
      (mrLoop env hasDb methodOk methodMsg remaining false recIdx).2.recoveryCalls ≤ 1 := by
  intro remaining
  induction remaining with
  | zero => intro recIdx; exact Nat.zero_le 1
  | succ n ih =>
    intro recIdx
    rw [mrLoop_succ]
    simp only [mrStep]
    split
    case h_1 r =>
      split
      · split
        · exact Nat.zero_le 1
        · split
          · split
            · simp [mrLoop_retried_no_recovery]
            · exact Nat.le_refl 1
          · exact Nat.zero_le 1
      · split
        · split
          · split
            · simp [mrLoop_retried_no_recovery]
            · exact Nat.le_refl 1
          · exact Nat.zero_le 1
        · split
          · split
            · split
              · split
                · simp [mrLoop_retried_no_recovery]
                · exact Nat.le_refl 1
              · exact Nat.zero_le 1
            · split
              · exact ih recIdx
              · exact Nat.zero_le 1
          · exact ih recIdx
    case h_2 =>
      split
      · exact ih recIdx
      · exact Nat.zero_le 1
    case h_3 msg =>
      split
      · exact ih recIdx
      · exact Nat.zero_le 1

/-- C1: for every logical call to `_make_request`, at most one
challenge-recovery attempt (`_try_cf_recovery`) is performed, no matter
how many attempts detect a challenge and regardless of which branch
(2xx-with-challenge-body, 4xx challenge, or 5xx challenge) detects
it. -/
theorem C1_at_most_one_recovery (env : ExecEnv) (ctx : SessionCtx) (hasDb : Bool)
    (method : String) (e : Envelope) (s : Stats)
    (h : make_request env ctx hasDb method = Except.ok (e, s)) :
    s.recoveryCalls ≤ 1 := by
  unfold make_request at h
  split at h
  · exact absurd h (by simp)
  · injection h with h
    have hs : s = (mrLoop env hasDb (method_supported method)
        ("不支持的 HTTP 方法: " ++ method) MAX_RETRIES false 0).2 := by
      rw [h]
    rw [hs]
    exact mrLoop_recovery_le_one env hasDb (method_supported method)
      ("不支持的 HTTP 方法: " ++ method) MAX_RETRIES 0

/-- Witness for C1 at the all-timeout environment. -/
theorem C1_at_most_one_recovery_witness :
    (⟨3, 0, [1, 2]⟩ : Stats).recoveryCalls ≤ 1 :=
  C1_at_most_one_recovery env0 ⟨true, false⟩ true "GET"
    ⟨false, 0, none, some "请求超时,已重试 3 次", none⟩ ⟨3, 0, [1, 2]⟩ rfl

/-- Counterexample for C2: first dispatch returns a 2xx challenge page,
recovery succeeds, all later dispatches are plain 500s.  The claim
predicts that the successful recovery re-dispatches at the same attempt
index, leaving the full 3-attempt budget, hence `1 + MAX_RETRIES = 4`
dispatches and back-off sleeps `[1, 2]`.  The code instead performs 3
dispatches with the single sleep `[2]` (the delay of attempt index 1):
the `continue` after recovery advances the loop index, consuming a
retry slot. -/
theorem C2_counterexample :
    make_request envC2 ⟨true, false⟩ true "GET" =
      Except.ok
        (⟨false, 500, none, some "服务器错误 500,已重试 3 次", none⟩,
          ⟨3, 1, [2]⟩) ∧
    (⟨3, 1, [2]⟩ : Stats).dispatches ≠ 1 + MAX_RETRIES := by
  exact ⟨rfl, by decide⟩

/-- Amended C2: when a challenge is detected on the first dispatch and
challenge recovery succeeds, the request is re-dispatched at the next
attempt index — the call continues as the loop with only
`MAX_RETRIES - 1 = 2` iterations left and the challenge-retried flag
set, so the successful recovery consumes one slot of the 3-attempt
budget (and a recovery succeeding on the final attempt would exit the
loop into the `"未知错误"` envelope without any re-dispatch). -/
theorem C2_amended_recovery_advances_attempt (env : ExecEnv) (r : HttpResponse)
    (h0 : env.outcomes 0 = AttemptOutcome.response r)
    (h1 : 200 ≤ r.status) (h2 : r.status < 300) (h3 : r.json = none)
    (h4 : (simplify_error_text (some r.text)).code = some "cloudflare_challenge")
    (h5 : env.recoveries 0 = true) :
    make_request env ⟨true, false⟩ true "GET" =
      Except.ok
        (let res := mrLoop env true true ("不支持的 HTTP 方法: " ++ "GET") 2 true 1
         (res.1, ⟨1 + res.2.dispatches, 1 + res.2.recoveryCalls, res.2.sleeps⟩)) := by
  have hstart : make_request env ⟨true, false⟩ true "GET" =
      Except.ok (mrLoop env true true ("不支持的 HTTP 方法: " ++ "GET") MAX_RETRIES false 0) :=
    rfl
  rw [hstart, mrLoop_start]
  simp [mrStep, h0, h1, h2, h3, h4, h5]

/-- Witness for the amended C2 at the concrete environment `envC2`. -/
theorem C2_amended_recovery_advances_attempt_witness :
    make_request envC2 ⟨true, false⟩ true "GET" =
      Except.ok
        (let res := mrLoop envC2 true true ("不支持的 HTTP 方法: " ++ "GET") 2 true 1
         (res.1, ⟨1 + res.2.dispatches, 1 + res.2.recoveryCalls, res.2.sleeps⟩)) :=
  C2_amended_recovery_advances_attempt envC2 ⟨200, none, chl_text⟩ rfl
    (by decide) (by decide) rfl (by decide) rfl

/-- On a retryable outcome at a non-final attempt, the loop body sleeps
the scheduled delay and advances to the next attempt with the flags
unchanged. -/
theorem mrStep_retryable (env : ExecEnv) (hasDb : Bool) (methodMsg : String)
    (attempt : Nat) (cfRetried : Bool) (recIdx : Nat)
    (next : Bool → Nat → Envelope × Stats)
    (h : retryable_outcome (env.outcomes attempt) = true)
    (hlt : attempt < MAX_RETRIES - 1) :
    mrStep env hasDb true methodMsg attempt cfRetried recIdx next =
      ((next cfRetried recIdx).1,
        ⟨1 + (next cfRetried recIdx).2.dispatches,
          (next cfRetried recIdx).2.recoveryCalls,
          RETRY_DELAYS.getD attempt 0 :: (next cfRetried recIdx).2.sleeps⟩) := by
  cases ho : env.outcomes attempt with
  | response r =>
    rw [ho] at h
    simp only [retryable_outcome, Bool.and_eq_true, Bool.not_eq_true',
      decide_eq_true_eq] at h
    have hA : ¬(200 ≤ r.status ∧ r.status < 300) := by omega
    have hB : ¬(400 ≤ r.status ∧ r.status < 500) := by omega
    simp [mrStep, ho, hA, hB, h.1, h.2, hlt]
  | timeout => simp [mrStep, ho, hlt]
  | exn msg => simp [mrStep, ho, hlt]

/-- On a retryable outcome at the final attempt, the loop body returns
the terminal failure envelope for that outcome. -/
theorem mrStep_retryable_last (env : ExecEnv) (hasDb : Bool) (methodMsg : String)
    (attempt : Nat) (cfRetried : Bool) (recIdx : Nat)
    (next : Bool → Nat → Envelope × Stats)
    (h : retryable_outcome (env.outcomes attempt) = true)
    (hge : ¬(attempt < MAX_RETRIES - 1)) :
    mrStep env hasDb true methodMsg attempt cfRetried recIdx next =
      (⟨false, terminal_status (env.outcomes attempt), none,
        some (terminal_failure_error (env.outcomes attempt)), none⟩, ⟨1, 0, []⟩) := by
  cases ho : env.outcomes attempt with
  | response r =>
    rw [ho] at h
    simp only [retryable_outcome, Bool.and_eq_true, Bool.not_eq_true',
      decide_eq_true_eq] at h
    have hA : ¬(200 ≤ r.status ∧ r.status < 300) := by omega
    have hB : ¬(400 ≤ r.status ∧ r.status < 500) := by omega
    simp [mrStep, ho, hA, hB, h.1, h.2, hge, terminal_status, terminal_failure_error]
  | timeout => simp [mrStep, ho, hge, terminal_status, terminal_failure_error]
  | exn msg => simp [mrStep, ho, hge, terminal_status, terminal_failure_error]

/-- Amended C3: when every attempt ends in a retryable failure (plain
5xx, timeout, or transport exception), the executor performs exactly 3
attempts, sleeping 1s after attempt 0 and 2s after attempt 1 (the third
scheduled delay 4s is never slept), and returns the terminal failure
envelope of the last outcome.  The 5xx and timeout terminal messages
state the retry count 3; the transport-exception terminal message is
`"请求异常: <msg>"` without the retry count. -/
theorem C3_amended_retry_schedule (env : ExecEnv) (hasDb : Bool)
    (h0 : retryable_outcome (env.outcomes 0) = true)
    (h1 : retryable_outcome (env.outcomes 1) = true)
    (h2 : retryable_outcome (env.outcomes 2) = true) :
    make_request env ⟨true, false⟩ hasDb "GET" =
      Except.ok
        (⟨false, terminal_status (env.outcomes 2), none,
          some (terminal_failure_error (env.outcomes 2)), none⟩,
          ⟨3, 0, [1, 2]⟩) := by
  have hstart : make_request env ⟨true, false⟩ hasDb "GET" =
      Except.ok (mrLoop env hasDb true ("不支持的 HTTP 方法: " ++ "GET") MAX_RETRIES false 0) :=
    rfl
  rw [hstart, mrLoop_start,
    mrStep_retryable env hasDb _ 0 false 0 _ h0 (by decide)]
  rw [mrLoop_two, mrStep_retryable env hasDb _ 1 false 0 _ h1 (by decide)]
  rw [mrLoop_one, mrStep_retryable_last env hasDb _ 2 false 0 _ h2 (by decide)]
  simp [RETRY_DELAYS]

/-- Counterexample for C3: with every attempt raising a transport
exception, the terminal envelope's message is `"请求异常: boom"`, which
contains neither the retry marker `"已重试"` nor the digit `"3"` — the
transport-exception exhaustion message does not state the retry
count. -/
theorem C3_counterexample :
    make_request envC3x ⟨true, false⟩ true "GET" =
      Except.ok (⟨false, 0, none, some "请求异常: boom", none⟩, ⟨3, 0, [1, 2]⟩) ∧
    listHasSub ("已重试".data) ("请求异常: boom".data) = false ∧
    listHasSub ("3".data) ("请求异常: boom".data) = false :=
  ⟨rfl, by decide, by decide⟩

/-- Witness for the amended C3 at the all-timeout environment. -/
theorem C3_amended_retry_schedule_witness :
    make_request env0 ⟨true, false⟩ true "GET" =
      Except.ok
        (⟨false, terminal_status (env0.outcomes 2), none,
          some (terminal_failure_error (env0.outcomes 2)), none⟩,
          ⟨3, 0, [1, 2]⟩) :=
  C3_amended_retry_schedule env0 true rfl rfl rfl

/-- The classifier maps any text matching the challenge heuristic to the
challenge message and code. -/
theorem simplify_challenge (t : String)
    (hh : looks_like_html (some t) = true)
    (hc : is_cloudflare_challenge (some t) = true) :
    simplify_error_text (some t) = ⟨cf_blocked_message, some "cloudflare_challenge"⟩ := by
  have hne : t.data.isEmpty = false := by
    by_contra hcon
    simp only [Bool.not_eq_false] at hcon
    simp [looks_like_html, hcon] at hh
  simp [simplify_error_text, hne, hh, hc]

/-- C4: a response whose body matches the challenge heuristic is
classified as a challenge regardless of the status code — at 200, 403
and 503 alike the executor takes the recovery path (one recovery call)
and, with recovery failing, returns the envelope with error code
`"cloudflare_challenge"` after a single dispatch. -/
theorem C4_challenge_any_status (env : ExecEnv) (t : String) (s : Nat)
    (hh : looks_like_html (some t) = true)
    (hc : is_cloudflare_challenge (some t) = true)
    (hs : s = 200 ∨ s = 403 ∨ s = 503)
    (h0 : env.outcomes 0 = AttemptOutcome.response ⟨s, none, t⟩)
    (hrec : env.recoveries 0 = false) :
    make_request env ⟨true, false⟩ true "GET" =
      Except.ok
        (⟨false, s, none, some cf_blocked_message, some "cloudflare_challenge"⟩,
          ⟨1, 1, []⟩) := by
  have hsimp := simplify_challenge t hh hc
  have hstart : make_request env ⟨true, false⟩ true "GET" =
      Except.ok (mrLoop env true true ("不支持的 HTTP 方法: " ++ "GET") MAX_RETRIES false 0) :=
    rfl
  rw [hstart, mrLoop_start]
  rcases hs with rfl | rfl | rfl
  · simp [mrStep, h0, hsimp, hrec]
  · simp [mrStep, h0, client_error_fields, hsimp, hrec]
  · simp [mrStep, h0, hh, hc, hsimp, hrec]

/-- Witness for C4 at a concrete 503 challenge response. -/
theorem C4_challenge_any_status_witness :
    make_request envC4 ⟨true, false⟩ true "GET" =
      Except.ok
        (⟨false, 503, none, some cf_blocked_message, some "cloudflare_challenge"⟩,
          ⟨1, 1, []⟩) :=
  C4_challenge_any_status envC4 chl_text 503 (by decide) (by decide)
    (Or.inr (Or.inr rfl)) rfl rfl

/-- C5: a 4xx response not classified as a challenge is terminal after
exactly one dispatch — no back-off sleep, no recovery call, no further
attempt. -/
theorem C5_client_error_single_attempt (env : ExecEnv) (r : HttpResponse)
    (h0 : env.outcomes 0 = AttemptOutcome.response r)
    (h4 : 400 ≤ r.status) (h5 : r.status < 500)
    (hnc : (simplify_error_text (some (client_error_fields r).1)).code ≠
      some "cloudflare_challenge") :
    make_request env ⟨true, false⟩ true "GET" =
      Except.ok
        (⟨false, r.status, none,
          some (simplify_error_text (some (client_error_fields r).1)).message,
          (client_error_fields r).2 <|>
            (simplify_error_text (some (client_error_fields r).1)).code⟩,
          ⟨1, 0, []⟩) := by
  have hA : ¬(200 ≤ r.status ∧ r.status < 300) := by omega
  have hstart : make_request env ⟨true, false⟩ true "GET" =
      Except.ok (mrLoop env true true ("不支持的 HTTP 方法: " ++ "GET") MAX_RETRIES false 0) :=
    rfl
  rw [hstart, mrLoop_start]
  simp [mrStep, h0, hA, h4, h5, hnc]

/-- Witness for C5 at a concrete plain 404 response. -/
theorem C5_client_error_single_attempt_witness :
    make_request envC5 ⟨true, false⟩ true "GET" =
      Except.ok (⟨false, 404, none, some "not found", none⟩, ⟨1, 0, []⟩) :=
  C5_client_error_single_attempt envC5 ⟨404, none, "not found"⟩ rfl
    (by decide) (by decide) (by decide)

/-- C6: with cookies present and captured at time `t`, the cache is
valid at `t + 1799` (so `_ensure_cf_cookies` issues no solver call) and
invalid at `t + 1801` (so it re-fetches); validity holds exactly when
cookies are present and the age is strictly below 1800 seconds. -/
theorem C6_cookie_ttl (st : CfState) (cfg : FlareConfig) (t now : Int)
    (hc : cookies_present st = true) (ht : st.cf_cookies_time = t) :
    cf_cookies_valid st (t + 1799) = true ∧
    cf_cookies_valid st (t + 1801) = false ∧
    ensure_solver_calls st (t + 1799) cfg = 0 ∧
    ensure_cf_cookies_fetches st (t + 1801) = true ∧
    (cf_cookies_valid st now = true ↔
      cookies_present st = true ∧ now - st.cf_cookies_time < CF_COOKIE_TTL) := by
  subst ht
  have hv1 : cf_cookies_valid st (st.cf_cookies_time + 1799) = true := by
    simp only [cf_cookies_valid, hc, Bool.true_and, decide_eq_true_eq, CF_COOKIE_TTL]
    omega
  have hv2 : cf_cookies_valid st (st.cf_cookies_time + 1801) = false := by
    simp only [cf_cookies_valid, hc, Bool.true_and, CF_COOKIE_TTL,
      decide_eq_false_iff_not]
    omega
  refine ⟨hv1, hv2, ?_, ?_, ?_⟩
  · simp [ensure_solver_calls, hv1]
  · simp [ensure_cf_cookies_fetches, hv2]
  · simp [cf_cookies_valid]

/-- Witness for C6 at a concrete cache captured at time 1000. -/
theorem C6_cookie_ttl_witness :
    cf_cookies_valid cfst0 (1000 + 1799) = true ∧
    cf_cookies_valid cfst0 (1000 + 1801) = false ∧
    ensure_solver_calls cfst0 (1000 + 1799) flcfg0 = 0 ∧
    ensure_cf_cookies_fetches cfst0 (1000 + 1801) = true ∧
    (cf_cookies_valid cfst0 1500 = true ↔
      cookies_present cfst0 = true ∧ 1500 - cfst0.cf_cookies_time < CF_COOKIE_TTL) :=
  C6_cookie_ttl cfst0 flcfg0 1000 1500 rfl rfl

set_option maxRecDepth 8000 in
/-- C7: against the server reporting `total = 120` with pages of 50, 50
and 20 items, `get_members` issues exactly the three requests at offsets
0, 50 and 100, terminates, and returns the 120 items in order with no
duplicates (fuel 1000 is far above the 3 iterations actually used). -/
theorem C7_get_members_pagination :
    get_members server120 1000 =
      some (⟨true, List.range' 0 120, 120, none, none⟩, [0, 50, 100]) ∧
    (List.range' 0 120).Nodup := by
  refine ⟨rfl, ?_⟩
  decide

/-- One success envelope of the pagination loop always reports the
length of the accumulated member list as its total. -/
theorem get_members_loop_total {α : Type} (server : Nat → PageResult α) :
    ∀ (fuel offset : Nat) (acc : List α) (r : MembersResult α) (reqs : List Nat),
      get_members_loop server fuel offset acc = some (r, reqs) →
      r.success = true → r.total = r.members.length := by
  intro fuel
  induction fuel with
  | zero =>
    intro offset acc r reqs h
    exact absurd h (by simp [get_members_loop])
  | succ n ih =>
    intro offset acc r reqs h hs
    rw [get_members_loop] at h
    cases hso : server offset with
    | fail e ec =>
      rw [hso] at h
      simp only [Option.some.injEq, Prod.mk.injEq] at h
      rw [← h.1] at hs
      exact absurd hs (by simp)
    | ok items total =>
      rw [hso] at h
      simp only at h
      split at h
      · simp only [Option.some.injEq, Prod.mk.injEq] at h
        rw [← h.1]
      · rw [Option.map_eq_some'] at h
        obtain ⟨⟨r2, reqs2⟩, hp, hf⟩ := h
        simp only [Prod.mk.injEq] at hf
        rw [← hf.1] at hs ⊢
        exact ih (offset + 50) (acc ++ items) r2 reqs2 hp hs

/-- C10: whenever `get_members` returns a success envelope, its `total`
field equals the length of the member list it returns — not the
server-reported total. -/
theorem C10_total_is_member_count {α : Type} (server : Nat → PageResult α)
    (fuel : Nat) (r : MembersResult α) (reqs : List Nat)
    (h : get_members server fuel = some (r, reqs)) (hs : r.success = true) :
    r.total = r.members.length :=
  get_members_loop_total server fuel 0 [] r reqs h hs

/-- Witness for C10 at a server that reports `total = 10` while
delivering 50 items: the returned total is 50, the delivered count. -/
theorem C10_total_is_member_count_witness :
    get_members server_over 5 =
      some (⟨true, List.range' 0 50, 50, none, none⟩, [0]) ∧
    (⟨true, List.range' 0 50, 50, none, none⟩ : MembersResult Nat).total =
      (⟨true, List.range' 0 50, 50, none, none⟩ : MembersResult Nat).members.length :=
  ⟨rfl, C10_total_is_member_count server_over 5 _ _ rfl rfl⟩

/-- Counterexample for C8: when no session exists and `_create_session`
raises, the exception propagates out of `_make_request` (the session is
created before the try/except of the retry loop), so the executor does
not convert this failure into an envelope. -/
theorem C8_counterexample :
    make_request env0 ⟨false, true⟩ true "GET" =
      Except.error "exception raised while creating the session" := rfl

/-- Amended C8: once the session exists (or its creation succeeds), the
executor always returns an envelope — every failure inside the attempt
loop is converted, including the `ValueError` raised for an unsupported
HTTP method, which is caught by the generic handler and surfaces as a
`success = false` envelope after the retry budget; but a failure while
creating the session propagates (see the counterexample). -/
theorem C8_amended_no_raise_after_session (env : ExecEnv) (ctx : SessionCtx)
    (hasDb : Bool) (method : String)
    (hctx : ctx.hasSession = true ∨ ctx.createFails = false) :
    (∃ e s, make_request env ctx hasDb method = Except.ok (e, s)) ∧
    make_request env ⟨true, false⟩ hasDb "PATCH" =
      Except.ok
        (⟨false, 0, none,
          some ("请求异常: " ++ ("不支持的 HTTP 方法: " ++ "PATCH")), none⟩,
          ⟨0, 0, [1, 2]⟩) := by
  constructor
  · unfold make_request
    rw [if_neg]
    · exact ⟨_, _, rfl⟩
    · rcases hctx with h | h <;> simp [h]
  · rfl

/-- Witness for the amended C8: the unsupported-method envelope at a
concrete environment. -/
theorem C8_amended_no_raise_after_session_witness :
    make_request env0 ⟨true, false⟩ true "PATCH" =
      Except.ok
        (⟨false, 0, none,
          some ("请求异常: " ++ ("不支持的 HTTP 方法: " ++ "PATCH")), none⟩,
          ⟨0, 0, [1, 2]⟩) :=
  (C8_amended_no_raise_after_session env0 ⟨true, false⟩ true "GET" (Or.inl rfl)).2

/-- Counterexample for C9: when the underlying `session.close()` raises,
`close` propagates the exception and the session reference remains set —
it is not reset to `None` on that path. -/
theorem C9_counterexample :
    (close ⟨some ()⟩ true).2.session = some () ∧
    (close ⟨some ()⟩ true).1 = some "exception from session.close()" :=
  ⟨rfl, rfl⟩

/-- Amended C9: `close` sets the state to no-session on every path on
which the underlying release does not raise (including the path where no
session exists); when the release raises, the exception propagates and
the session reference is left in place. -/
theorem C9_amended_close_on_success (st : SessionState) :
    (close st false).1 = none ∧ (close st false).2.session = none := by
  cases st with
  | mk s =>
    cases s with
    | none => exact ⟨rfl, rfl⟩
    | some u => exact ⟨rfl, rfl⟩

/-- Witness for the amended C9 at a live session. -/
theorem C9_amended_close_on_success_witness :
    (close ⟨some ()⟩ false).1 = none ∧ (close ⟨some ()⟩ false).2.session = none :=
  C9_amended_close_on_success ⟨some ()⟩

end ChatGPTService
